import Mathlib

/-!
Verification of the solar-system rendering core in
`src/components/SolarSystem.tsx` (the version with the draggable reference
cube, distance ranking, camera-state preservation and eased camera flights).

Embedding conventions:
* JavaScript numbers (IEEE doubles) are modelled with exact arithmetic.
  Quantities the program derives by field operations only (coordinates,
  scene positions, camera states, times, eased interpolation) are `ℚ`;
  quantities that pass through `Math.sqrt` (`Vector3.distanceTo`) are `ℝ`
  via `Real.sqrt`.  The IEEE special values NaN/Infinity, which field
  arithmetic cannot represent, get a dedicated type `JSNum` used to model
  the transformer boundary where the spec discusses them.
* JavaScript object maps (`ApiResponse.data`) are association lists keyed
  by the body id; `Array.prototype.sort`, which ECMAScript requires to be
  stable, is modelled by Mathlib's stable `List.insertionSort` ordered by
  the comparator `(a, b) => a.distance - b.distance`.
* `requestAnimationFrame` callbacks are modelled as a queue (a list in
  registration order) that one frame step runs in order.
-/

/-- Scale factor for converting AU to scene units (`SCALE_FACTOR = 10`). -/
def SCALE_FACTOR : ℚ := 10

/-- Scale factor for planet sizes (`SIZE_SCALE = 0.5`). -/
def SIZE_SCALE : ℚ := 0.5

/-- A three-component vector of scene coordinates (`THREE.Vector3`,
restricted to the field operations the modelled code uses). -/
structure Vec3 where
  x : ℚ
  y : ℚ
  z : ℚ
deriving DecidableEq

/-- Componentwise difference of two vectors. -/
def Vec3.sub (a b : Vec3) : Vec3 :=
  ⟨a.x - b.x, a.y - b.y, a.z - b.z⟩

/-- One entry of the `PLANETS` catalog (the rendering-only fields `color`
and `textureMap` are omitted; they never influence geometry). -/
structure PlanetData where
  id : String
  name : String
  size : ℚ
  inclination : ℚ
deriving DecidableEq

/-- The fixed `PLANETS` catalog, in declaration order. -/
def PLANETS : List PlanetData :=
  [⟨"sun", "Sun", 109/50, 0⟩,
   ⟨"mercury", "Mercury", 0.383, 7.0⟩,
   ⟨"venus", "Venus", 0.949, 3.4⟩,
   ⟨"earth", "Earth", 1.0, 0.0⟩,
   ⟨"mars", "Mars", 0.532, 1.9⟩,
   ⟨"jupiter", "Jupiter", 11.209, 1.3⟩,
   ⟨"saturn", "Saturn", 9.449, 2.5⟩,
   ⟨"uranus", "Uranus", 4.007, 0.8⟩,
   ⟨"neptune", "Neptune", 3.883, 1.8⟩]

/-- One body's coordinate entry from the API (`CoordinateData`). -/
structure CoordinateData where
  timestamp : String
  x : ℚ
  y : ℚ
  z : ℚ
deriving DecidableEq

/-- The coordinate map of an `ApiResponse` (`data[planetId]`), as an
association list keyed by body id. -/
def ApiData := List (String × CoordinateData)

/-- Position given to a body's mesh by the scene-construction effect: the
sun mesh is created at the origin and never repositioned; every other body
is placed at `coords * SCALE_FACTOR` when `planetData.data[planet.id]` is
present and at the fallback `(10, 0, 0)` otherwise. -/
def meshPosition (data : ApiData) (p : PlanetData) : Vec3 :=
  if p.id = "sun" then ⟨0, 0, 0⟩
  else
    match List.lookup p.id data with
    | some c => ⟨c.x * SCALE_FACTOR, c.y * SCALE_FACTOR, c.z * SCALE_FACTOR⟩
    | none => ⟨10, 0, 0⟩

/-- A JavaScript IEEE double at the data boundary: either a finite value
or one of the special values NaN, `Infinity`, `-Infinity`. -/
inductive JSNum where
  | fin : ℚ → JSNum
  | nan : JSNum
  | inf : JSNum
  | ninf : JSNum
deriving DecidableEq

/-- Multiplication of a boundary value by the positive finite constant
`SCALE_FACTOR = 10`, following IEEE semantics for the special values. -/
def JSNum.mulScale : JSNum → JSNum
  | .fin q => .fin (q * 10)
  | .nan => .nan
  | .inf => .inf
  | .ninf => .ninf

/-- A coordinate entry whose components may carry IEEE special values. -/
structure CoordinateDataF where
  timestamp : String
  x : JSNum
  y : JSNum
  z : JSNum
deriving DecidableEq

/-- The mesh-positioning step over boundary values: the guard
`if (planetData?.data[planet.id])` tests only presence of the entry, so
whatever components the entry has — finite or not — are multiplied by the
scale factor and used. -/
def meshPositionF (data : List (String × CoordinateDataF)) (p : PlanetData) :
    JSNum × JSNum × JSNum :=
  if p.id = "sun" then (.fin 0, .fin 0, .fin 0)
  else
    match List.lookup p.id data with
    | some c => (c.x.mulScale, c.y.mulScale, c.z.mulScale)
    | none => (.fin 10, .fin 0, .fin 0)

/-- Squared distance between two vectors, as `THREE.Vector3.distanceToSquared`
computes it: `dx*dx + dy*dy + dz*dz`. -/
def distSq (a b : Vec3) : ℚ :=
  (a.x - b.x) * (a.x - b.x) + (a.y - b.y) * (a.y - b.y) + (a.z - b.z) * (a.z - b.z)

/-- `THREE.Vector3.distanceTo`: the square root of `distanceToSquared`. -/
noncomputable def distanceTo (a b : Vec3) : ℝ :=
  Real.sqrt ((distSq a b : ℚ) : ℝ)

/-- `Number(x.toFixed(2))` under exact-real semantics, following
ECMA-262 `Number.prototype.toFixed`: a negative receiver contributes a
sign and the digits are produced for its negation; the digit count `n` is
the integer closest to `x * 10^2`, ties picking the larger `n`
(`round` in Mathlib rounds half up, which is exactly that tie rule). -/
noncomputable def ecmaFixed2 (x : ℝ) : ℚ :=
  if x < 0 then -(round ((-x) * 100) : ℤ) / 100 else (round (x * 100) : ℤ) / 100

/-- The distance value published per frame for a body: the cube-to-mesh
distance converted back to AU by dividing by `SCALE_FACTOR` and rounded to
2 decimals by `toFixed(2)`. -/
noncomputable def distanceAU (cube mesh : Vec3) : ℚ :=
  ecmaFixed2 (distanceTo cube mesh / (SCALE_FACTOR : ℝ))

/-- Modelled from the spec: the Euclidean norm of a vector. -/
noncomputable def euclideanNorm (v : Vec3) : ℝ :=
  Real.sqrt (((v.x ^ 2 + v.y ^ 2 + v.z ^ 2 : ℚ) : ℝ))

/-- Modelled from the spec: rounding to exactly 2 decimal places with the
round-half-away-from-zero rule (round the magnitude half up, keep the
sign). -/
noncomputable def roundHalfAwayFromZero2 (x : ℝ) : ℚ :=
  if x < 0 then -(⌊(-x) * 100 + 1/2⌋ : ℤ) / 100 else (⌊x * 100 + 1/2⌋ : ℤ) / 100

/-- One entry of the per-frame `newDistances` ranking (the `position`
field, the projected screen coordinates, is modelled separately by
`labelScreenPos` — it never influences the ranking). -/
structure PlanetDistance where
  id : String
  name : String
  distance : ℚ
deriving DecidableEq

/-- The ordering the comparator `(a, b) => a.distance - b.distance`
establishes: ascending by the published distance. -/
def distLe (a b : PlanetDistance) : Prop :=
  a.distance ≤ b.distance

instance : DecidableRel distLe :=
  fun a b => inferInstanceAs (Decidable (a.distance ≤ b.distance))

instance : IsTotal PlanetDistance distLe :=
  ⟨fun a b => le_total a.distance b.distance⟩

instance : IsTrans PlanetDistance distLe :=
  ⟨fun _ _ _ hab hbc => le_trans hab hbc⟩

/-- The unsorted `newDistances` list built each frame: one entry per
catalog body, in `PLANETS` order. -/
noncomputable def computeDistances (data : ApiData) (cubePos : Vec3) : List PlanetDistance :=
  PLANETS.map fun p => ⟨p.id, p.name, distanceAU cubePos (meshPosition data p)⟩

/-- The published ranking: `newDistances.sort((a, b) => a.distance - b.distance)`.
ECMAScript requires `Array.prototype.sort` to be stable, so it is modelled
by the stable `List.insertionSort` under `distLe`. -/
noncomputable def rankDistances (data : ApiData) (cubePos : Vec3) : List PlanetDistance :=
  List.insertionSort distLe (computeDistances data cubePos)

/-- Camera state: position of the camera and the `OrbitControls` target. -/
structure CameraState where
  position : Vec3
  target : Vec3
deriving DecidableEq

/-- The transient state captured by one `focusOnPlanet` call: start and end
states, the start time (`Date.now()` at creation) and the duration (the
code always passes 1000 ms). -/
structure Flight where
  startPosition : Vec3
  startTarget : Vec3
  endPosition : Vec3
  endTarget : Vec3
  startTime : ℚ
  durationMs : ℚ
deriving DecidableEq

/-- The easing curve `1 - Math.pow(1 - progress, 3)` (cubic ease-out). -/
def easeOutCubic (p : ℚ) : ℚ :=
  1 - (1 - p) ^ 3

/-- The progress computed in `animateCamera`:
`Math.min(elapsed / duration, 1)`. -/
def flightProgress (f : Flight) (now : ℚ) : ℚ :=
  min ((now - f.startTime) / f.durationMs) 1

/-- Modelled from the spec: `clamp(t, 0, 1)`. -/
def clamp01 (t : ℚ) : ℚ :=
  max 0 (min t 1)

/-- `THREE.Vector3.lerpVectors(v1, v2, alpha)`:
componentwise `v1 + (v2 - v1) * alpha`. -/
def lerpVectors (a b : Vec3) (t : ℚ) : Vec3 :=
  ⟨a.x + (b.x - a.x) * t, a.y + (b.y - a.y) * t, a.z + (b.z - a.z) * t⟩

/-- One execution of the `animateCamera` callback body at wall-clock time
`now`: the camera position and the controls target are set to the eased
interpolation between the flight's captured start state and its end
state. -/
def tickFlight (f : Flight) (now : ℚ) : CameraState :=
  ⟨lerpVectors f.startPosition f.endPosition (easeOutCubic (flightProgress f now)),
   lerpVectors f.startTarget f.endTarget (easeOutCubic (flightProgress f now))⟩

/-- The camera subsystem: the current camera state and the queue of
pending `animateCamera` callbacks, one per flight still animating, in
`requestAnimationFrame` registration order. -/
structure CamSys where
  cam : CameraState
  flights : List Flight
deriving DecidableEq

/-- One animation frame at time `now`: every queued `animateCamera`
callback runs, in order, each overwriting the camera with its own
interpolated state (the writes are absolute, so the last callback wins the
frame), and re-registers itself exactly when its progress is below 1. -/
def stepFrame (s : CamSys) (now : ℚ) : CamSys :=
  ⟨s.flights.foldl (fun _ f => tickFlight f now) s.cam,
   s.flights.filter fun f => decide (flightProgress f now < 1)⟩

/-- `focusOnPlanet(planetId)` at time `now`: a no-op when the id has no
coordinate entry (the code also requires `controlsRef.current`, which this
model assumes present).  Otherwise the target is the body's scene
position, the camera end position is offset from it by
`(d, d/2, d)` with `d = 3 * planetSize`, a flight is created capturing the
current camera state with `startTime = now`, and `animateCamera` runs once
immediately and registers itself — nothing cancels callbacks of earlier
flights, so the new flight joins the queue behind them. -/
def focusOnPlanet (s : CamSys) (data : ApiData) (planetId : String) (now : ℚ) : CamSys :=
  match List.lookup planetId data with
  | none => s
  | some coords =>
    let targetPosition : Vec3 :=
      ⟨coords.x * SCALE_FACTOR, coords.y * SCALE_FACTOR, coords.z * SCALE_FACTOR⟩
    let planetSize : ℚ := (((PLANETS.find? fun p => p.id = planetId).map
      fun p => p.size).getD 1) * SIZE_SCALE
    let d : ℚ := planetSize * 3
    let cameraTargetPosition : Vec3 :=
      ⟨targetPosition.x + d, targetPosition.y + d / 2, targetPosition.z + d⟩
    let f : Flight :=
      ⟨s.cam.position, s.cam.target, cameraTargetPosition, targetPosition, now, 1000⟩
    ⟨tickFlight f now, s.flights ++ [f]⟩

/-- React-level state of the component, as far as camera preservation is
concerned: `controlsRef.current` (camera position and `OrbitControls`
target, `none` before the first scene effect) and the `cameraState` React
state (the last snapshot, `none` until one is taken). -/
structure AppState where
  controls : Option CameraState
  cameraState : Option CameraState
deriving DecidableEq

/-- The snapshot taken at the start of `fetchPlanetData`, before the new
data triggers the scene rebuild: when controls exist, `setCameraState`
stores a clone of the current camera position and target. -/
def snapshotCamera (s : AppState) : AppState :=
  match s.controls with
  | some c => ⟨s.controls, some c⟩
  | none => s

/-- The default camera of the scene effect: position `(0, 50, 100)`
(`camera.position.z = 100; camera.position.y = 50`), looking at the origin
(`camera.lookAt(0, 0, 0)`; a fresh `OrbitControls` target is the
origin). -/
def defaultCamera : CameraState :=
  ⟨⟨0, 50, 100⟩, ⟨0, 0, 0⟩⟩

/-- The scene-rebuild effect: a fresh camera and controls are created; a
saved `cameraState` is copied onto them (`camera.position.copy`,
`controls.target.copy`), otherwise the default applies. -/
def rebuildScene (s : AppState) : AppState :=
  match s.cameraState with
  | some c => ⟨some c, s.cameraState⟩
  | none => ⟨some defaultCamera, s.cameraState⟩

/-- A full external data refresh: snapshot (from `fetchPlanetData`), then
scene rebuild (the effect re-runs on the new `planetData`). -/
def dataRefresh (s : AppState) : AppState :=
  rebuildScene (snapshotCamera s)

/-- The label-position mapping of the animation loop: from the projected
normalized device coordinates of a body to pixel coordinates,
`x = (v.x * 0.5 + 0.5) * innerWidth` and `y = (-v.y * 0.5 + 0.5) * innerHeight`. -/
def labelScreenPos (ndcX ndcY w h : ℚ) : ℚ × ℚ :=
  ((ndcX * 0.5 + 0.5) * w, (-ndcY * 0.5 + 0.5) * h)

/-- Modelled from the spec: `screenX = (ndcX*0.5+0.5)*viewportWidth`,
`screenY = (-ndcY*0.5+0.5)*viewportHeight`. -/
def specScreenPos (ndcX ndcY viewportWidth viewportHeight : ℚ) : ℚ × ℚ :=
  ((ndcX * 0.5 + 0.5) * viewportWidth, (-ndcY * 0.5 + 0.5) * viewportHeight)

/-- The initial position of the draggable reference cube:
`draggableCube.position.set(20, 20, 20)`. -/
def draggableCubeInitialPosition : Vec3 :=
  ⟨20, 20, 20⟩

lemma ecmaFixed2_eq_roundHalfAway (x : ℝ) :
    ecmaFixed2 x = roundHalfAwayFromZero2 x := by
  rw [ecmaFixed2, roundHalfAwayFromZero2, round_eq, round_eq]

lemma round_ratCast_mul_hundred (q : ℚ) :
    round ((q : ℝ) * 100) = ⌊q * 100 + 1/2⌋ := by
  have h1 : ((q : ℝ) * 100) = ((q * 100 : ℚ) : ℝ) := by push_cast; ring
  rw [h1, round_eq,
    show ((q * 100 : ℚ) : ℝ) + 1/2 = ((q * 100 + 1/2 : ℚ) : ℝ) by push_cast; ring,
    Rat.floor_cast]

lemma ecmaFixed2_rat (q : ℚ) (hq : 0 ≤ q) :
    ecmaFixed2 ((q : ℚ) : ℝ) = ((⌊q * 100 + 1/2⌋ : ℤ) : ℚ) / 100 := by
  rw [ecmaFixed2, if_neg (not_lt.mpr (by exact_mod_cast hq)), round_ratCast_mul_hundred]

lemma distanceTo_eval (a b : Vec3) (q : ℚ) (hq : 0 ≤ q)
    (h : distSq a b = q * q) :
    distanceTo a b = ((q : ℚ) : ℝ) := by
  rw [distanceTo, h]
  push_cast
  exact Real.sqrt_mul_self (by exact_mod_cast hq)

lemma distanceAU_eval (a b : Vec3) (q : ℚ) (hq : 0 ≤ q)
    (h : distSq a b = (10 * q) * (10 * q)) :
    distanceAU a b = ((⌊q * 100 + 1/2⌋ : ℤ) : ℚ) / 100 := by
  have h10 : (0 : ℚ) ≤ 10 * q := by positivity
  have hdiv : distanceTo a b / ((SCALE_FACTOR : ℚ) : ℝ) = ((q : ℚ) : ℝ) := by
    rw [distanceTo_eval a b (10 * q) h10 h,
      show ((SCALE_FACTOR : ℚ) : ℝ) = 10 by norm_num [SCALE_FACTOR]]
    push_cast
    ring
  rw [distanceAU, hdiv, ecmaFixed2_rat q hq]

lemma euclideanNorm_eval (v : Vec3) (q : ℚ) (hq : 0 ≤ q)
    (h : v.x ^ 2 + v.y ^ 2 + v.z ^ 2 = q * q) :
    euclideanNorm v = ((q : ℚ) : ℝ) := by
  rw [euclideanNorm, h]
  push_cast
  exact Real.sqrt_mul_self (by exact_mod_cast hq)

lemma distanceAU_eq_spec (ref pos : Vec3) :
    distanceAU ref pos = roundHalfAwayFromZero2 (euclideanNorm (Vec3.sub ref pos) / 10) := by
  have hnorm : distanceTo ref pos = euclideanNorm (Vec3.sub ref pos) := by
    rw [distanceTo, euclideanNorm]
    congr 1
    simp only [distSq, Vec3.sub]
    push_cast
    ring
  rw [distanceAU, hnorm, ecmaFixed2_eq_roundHalfAway,
    show ((SCALE_FACTOR : ℚ) : ℝ) = 10 by norm_num [SCALE_FACTOR]]

lemma filter_orderedInsert (x : PlanetDistance) (L : List PlanetDistance) (d : ℚ) :
    (List.orderedInsert distLe x L).filter (fun p => decide (p.distance = d)) =
      if x.distance = d then
        x :: L.filter (fun p => decide (p.distance = d))
      else L.filter (fun p => decide (p.distance = d)) := by
  induction L with
  | nil =>
    by_cases hx : x.distance = d <;> simp [List.orderedInsert, hx]
  | cons b L ih =>
    by_cases hr : distLe x b
    · by_cases hx : x.distance = d <;>
        simp [List.orderedInsert, if_pos hr, List.filter_cons, hx]
    · have hb : b.distance < x.distance := lt_of_not_le hr
      by_cases hx : x.distance = d
      · have hbne : ¬ b.distance = d := by
          rw [← hx]; exact ne_of_lt hb
        simp [List.orderedInsert, if_neg hr, List.filter_cons, hx, hbne, ih]
      · by_cases hbd : b.distance = d <;>
          simp [List.orderedInsert, if_neg hr, List.filter_cons, hx, hbd, ih]

lemma filter_insertionSort (L : List PlanetDistance) (d : ℚ) :
    (List.insertionSort distLe L).filter (fun p => decide (p.distance = d)) =
      L.filter (fun p => decide (p.distance = d)) := by
  induction L with
  | nil => rfl
  | cons x L ih =>
    rw [List.insertionSort, filter_orderedInsert, List.filter_cons]
    by_cases hx : x.distance = d <;> simp [hx, ih]

lemma computeDistances_map_id (data : ApiData) (cube : Vec3) :
    (computeDistances data cube).map (fun p => p.id) = PLANETS.map (fun p => p.id) := by
  simp [computeDistances, List.map_map]

lemma foldl_overwrite (g : Flight → CameraState) (c : CameraState)
    (l : List Flight) (f : Flight) :
    List.foldl (fun _ x => g x) c (l ++ [f]) = g f := by
  rw [List.foldl_append]
  rfl

lemma distanceAU_origin_self : distanceAU ⟨0, 0, 0⟩ ⟨0, 0, 0⟩ = 0 := by
  rw [distanceAU_eval ⟨0, 0, 0⟩ ⟨0, 0, 0⟩ 0 le_rfl (by norm_num [distSq])]
  norm_num

lemma distanceAU_origin_fallback : distanceAU ⟨0, 0, 0⟩ ⟨10, 0, 0⟩ = 1 := by
  rw [distanceAU_eval ⟨0, 0, 0⟩ ⟨10, 0, 0⟩ 1 (by norm_num) (by norm_num [distSq])]
  norm_num

lemma computeDistances_empty_origin :
    computeDistances [] ⟨0, 0, 0⟩ =
      [⟨"sun", "Sun", 0⟩, ⟨"mercury", "Mercury", 1⟩, ⟨"venus", "Venus", 1⟩,
       ⟨"earth", "Earth", 1⟩, ⟨"mars", "Mars", 1⟩, ⟨"jupiter", "Jupiter", 1⟩,
       ⟨"saturn", "Saturn", 1⟩, ⟨"uranus", "Uranus", 1⟩, ⟨"neptune", "Neptune", 1⟩] := by
  norm_num +decide [computeDistances, PLANETS, meshPosition, List.lookup_nil,
    distanceAU_origin_self, distanceAU_origin_fallback]

lemma rank_empty_origin :
    rankDistances [] ⟨0, 0, 0⟩ =
      [⟨"sun", "Sun", 0⟩, ⟨"mercury", "Mercury", 1⟩, ⟨"venus", "Venus", 1⟩,
       ⟨"earth", "Earth", 1⟩, ⟨"mars", "Mars", 1⟩, ⟨"jupiter", "Jupiter", 1⟩,
       ⟨"saturn", "Saturn", 1⟩, ⟨"uranus", "Uranus", 1⟩, ⟨"neptune", "Neptune", 1⟩] := by
  rw [rankDistances, computeDistances_empty_origin]
  decide

/-- Claim C1, amended: the per-frame ranking is sorted ascending by the
rounded distance value, and bodies with equal rounded distances appear in
the order of the `PLANETS` catalog — the entries are built in catalog
order and the stable sort keeps that order for ties — not in lexicographic
id order. -/
theorem ranking_sorted_ties_follow_catalog_order (data : ApiData) (cube : Vec3) :
    (rankDistances data cube).Sorted distLe
    ∧ (∀ d : ℚ, (rankDistances data cube).filter (fun p => decide (p.distance = d)) =
        (computeDistances data cube).filter (fun p => decide (p.distance = d)))
    ∧ (computeDistances data cube).map (fun p => p.id) = PLANETS.map (fun p => p.id) :=
  ⟨List.sorted_insertionSort distLe (computeDistances data cube),
   fun d => filter_insertionSort (computeDistances data cube) d,
   computeDistances_map_id data cube⟩

/-- Claim C1, counterexample: with no coordinate data and the reference
point at the origin, every planet except the sun sits at the fallback
position and publishes the rounded distance 1; the ranking keeps catalog
order for this tie, so Venus (index 2) precedes Earth (index 3) although
"earth" is lexicographically smaller than "venus". -/
theorem ranking_tie_not_lexicographic :
    (rankDistances [] ⟨0, 0, 0⟩).map (fun p => p.id) =
      [("sun" : String), "mercury", "venus", "earth", "mars", "jupiter",
       "saturn", "uranus", "neptune"]
    ∧ (rankDistances [] ⟨0, 0, 0⟩).map (fun p => p.distance) =
      [0, 1, 1, 1, 1, 1, 1, 1, 1]
    ∧ List.Lex (· < ·) (("earth" : String)).data (("venus" : String)).data := by
  rw [rank_empty_origin]
  exact ⟨rfl, rfl, by decide⟩

/-- Claim C2, counterexample: with a flight in progress (started at time 0,
duration 1000 ms), a second focus command at time 500 does not discard it:
both `animateCamera` callbacks stay registered (the flight list has length
2 and still contains the flight started at 0). -/
theorem second_focus_keeps_first_flight :
    ((focusOnPlanet (focusOnPlanet ⟨⟨⟨0, 50, 100⟩, ⟨0, 0, 0⟩⟩, []⟩
        [(("mercury" : String), ⟨"t", 1, 0, 0⟩)] ("mercury") 0)
        [(("mercury" : String), ⟨"t", 1, 0, 0⟩)] ("mercury") 500).flights).length = 2
    ∧ ((focusOnPlanet (focusOnPlanet ⟨⟨⟨0, 50, 100⟩, ⟨0, 0, 0⟩⟩, []⟩
        [(("mercury" : String), ⟨"t", 1, 0, 0⟩)] ("mercury") 0)
        [(("mercury" : String), ⟨"t", 1, 0, 0⟩)] ("mercury") 500).flights).map
          (fun f => f.startTime) = [0, 500] := by
  exact ⟨by decide, by decide⟩

/-- Claim C2, amended: a focus command for a body with coordinate data
does not cancel the in-progress flight: the new flight is appended behind
every already-registered callback and the old flights keep running until
their own completion; because the callbacks run in registration order and
each writes the camera absolutely, the newest flight's interpolation is
what the frame-final camera state shows. -/
theorem focus_appends_flight_newest_drives_frame
    (s : CamSys) (data : ApiData) (pid : String) (c : CoordinateData) (now t : ℚ)
    (h : List.lookup pid data = some c) :
    ∃ f : Flight,
      (focusOnPlanet s data pid now).flights = s.flights ++ [f]
      ∧ f.startTime = now
      ∧ f.startPosition = s.cam.position
      ∧ f.startTarget = s.cam.target
      ∧ (stepFrame (focusOnPlanet s data pid now) t).cam = tickFlight f t := by
  simp only [focusOnPlanet, h, stepFrame]
  exact ⟨_, rfl, rfl, rfl, rfl, foldl_overwrite (fun f => tickFlight f t) _ s.flights _⟩

/-- Claim C2, witness for the amended theorem at a concrete state. -/
theorem focus_appends_flight_newest_drives_frame_witness :
    List.lookup (("mercury" : String)) ([(("mercury" : String), ⟨"t", 1, 0, 0⟩)] : ApiData) =
      some ⟨"t", 1, 0, 0⟩
    ∧ ∃ f : Flight,
      (focusOnPlanet ⟨⟨⟨0, 50, 100⟩, ⟨0, 0, 0⟩⟩, []⟩
          [(("mercury" : String), ⟨"t", 1, 0, 0⟩)] ("mercury") 0).flights = [] ++ [f]
      ∧ f.startTime = 0
      ∧ f.startPosition = ⟨0, 50, 100⟩
      ∧ f.startTarget = ⟨0, 0, 0⟩
      ∧ (stepFrame (focusOnPlanet ⟨⟨⟨0, 50, 100⟩, ⟨0, 0, 0⟩⟩, []⟩
            [(("mercury" : String), ⟨"t", 1, 0, 0⟩)] ("mercury") 0) 500).cam = tickFlight f 500 :=
  ⟨rfl, focus_appends_flight_newest_drives_frame ⟨⟨⟨0, 50, 100⟩, ⟨0, 0, 0⟩⟩, []⟩
    [(("mercury" : String), ⟨"t", 1, 0, 0⟩)] ("mercury") ⟨"t", 1, 0, 0⟩ 0 500 rfl⟩

/-- Claim C3: for every reference point and body scene position, the
published distance value equals the Euclidean norm of
(referencePoint - scenePosition) divided by SCALE_FACTOR = 10 and rounded
to exactly 2 decimal places with round-half-away-from-zero (the exact-real
semantics of `Number(x.toFixed(2))` on a nonnegative argument). -/
theorem published_distance_is_rounded_norm (ref pos : Vec3) :
    SCALE_FACTOR = 10
    ∧ distanceAU ref pos = roundHalfAwayFromZero2 (euclideanNorm (Vec3.sub ref pos) / 10) :=
  ⟨rfl, distanceAU_eq_spec ref pos⟩

/-- Claim C4, amended: each frame the ranking covers the ENTIRE catalog:
the ranked ids are a permutation of all nine catalog ids, regardless of
which bodies have a coordinate in the refresh data; a body without a
coordinate is still ranked (at its fallback scene position). -/
theorem ranking_covers_entire_catalog (data : ApiData) (cube : Vec3) :
    ((rankDistances data cube).map (fun p => p.id)).Perm (PLANETS.map (fun p => p.id)) := by
  have h1 : ((rankDistances data cube).map (fun p => p.id)).Perm
      ((computeDistances data cube).map (fun p => p.id)) :=
    (List.perm_insertionSort distLe (computeDistances data cube)).map _
  rw [computeDistances_map_id] at h1
  exact h1

/-- Claim C4, counterexample: with an empty refresh data set, Mercury has
no coordinate, yet it appears in the distance-ranking output (at the
fallback position) — bodies without a known position ARE ranked. -/
theorem body_without_coordinate_still_ranked :
    List.lookup (("mercury" : String)) ([] : ApiData) = none
    ∧ (("mercury" : String)) ∈ (rankDistances [] ⟨0, 0, 0⟩).map (fun p => p.id) := by
  refine ⟨rfl, ?_⟩
  rw [rank_empty_origin]
  decide

lemma lerpVectors_zero (a b : Vec3) : lerpVectors a b 0 = a := by
  obtain ⟨ax, ay, az⟩ := a
  simp [lerpVectors]

lemma lerpVectors_one (a b : Vec3) : lerpVectors a b 1 = b := by
  obtain ⟨bx, biy, bz⟩ := b
  simp only [lerpVectors, mul_one, Vec3.mk.injEq]
  refine ⟨by ring, by ring, by ring⟩

/-- Claim C5: evaluating a flight at a time `now` at or after its start
(with positive duration) yields progress `clamp((now - t0)/d, 0, 1)` (the
code's `Math.min(elapsed/duration, 1)` agrees with the clamp because the
elapsed time is nonnegative), cubic ease-out `1 - (1 - p)^3`, and position
and target each `start + (end - start) * eased`; at progress 0 the result
is exactly the start state and once progress reaches 1 it is exactly the
target state, with no residual error. -/
theorem flight_tick_formulas (f : Flight) (now : ℚ)
    (h0 : f.startTime ≤ now) (hd : 0 < f.durationMs) :
    flightProgress f now = clamp01 ((now - f.startTime) / f.durationMs)
    ∧ (tickFlight f now).position =
        lerpVectors f.startPosition f.endPosition (easeOutCubic (flightProgress f now))
    ∧ (tickFlight f now).target =
        lerpVectors f.startTarget f.endTarget (easeOutCubic (flightProgress f now))
    ∧ (now = f.startTime → tickFlight f now = ⟨f.startPosition, f.startTarget⟩)
    ∧ (f.startTime + f.durationMs ≤ now → tickFlight f now = ⟨f.endPosition, f.endTarget⟩) := by
  have hnn : 0 ≤ (now - f.startTime) / f.durationMs := div_nonneg (by linarith) hd.le
  refine ⟨?_, rfl, rfl, ?_, ?_⟩
  · rw [flightProgress, clamp01]
    exact (max_eq_right (le_min hnn zero_le_one)).symm
  · intro h
    have hp : flightProgress f now = 0 := by
      rw [flightProgress, h, sub_self, zero_div]
      exact min_eq_left zero_le_one
    have he : easeOutCubic 0 = 0 := by norm_num [easeOutCubic]
    simp only [tickFlight, hp, he, lerpVectors_zero]
  · intro h
    have hp : flightProgress f now = 1 := by
      rw [flightProgress]
      refine min_eq_right ?_
      rw [le_div_iff₀ hd]
      linarith
    have he : easeOutCubic 1 = 1 := by norm_num [easeOutCubic]
    simp only [tickFlight, hp, he, lerpVectors_one]

/-- Claim C5, witness: a concrete flight evaluated at its midpoint. -/
theorem flight_tick_formulas_witness :
    ((0 : ℚ) ≤ 250) ∧ ((0 : ℚ) < 1000)
    ∧ (flightProgress ⟨⟨0, 0, 0⟩, ⟨0, 0, 0⟩, ⟨1, 2, 3⟩, ⟨4, 5, 6⟩, 0, 1000⟩ 250 =
        clamp01 ((250 - 0) / 1000)
      ∧ (tickFlight ⟨⟨0, 0, 0⟩, ⟨0, 0, 0⟩, ⟨1, 2, 3⟩, ⟨4, 5, 6⟩, 0, 1000⟩ 250).position =
          lerpVectors ⟨0, 0, 0⟩ ⟨1, 2, 3⟩ (easeOutCubic
            (flightProgress ⟨⟨0, 0, 0⟩, ⟨0, 0, 0⟩, ⟨1, 2, 3⟩, ⟨4, 5, 6⟩, 0, 1000⟩ 250))
      ∧ (tickFlight ⟨⟨0, 0, 0⟩, ⟨0, 0, 0⟩, ⟨1, 2, 3⟩, ⟨4, 5, 6⟩, 0, 1000⟩ 250).target =
          lerpVectors ⟨0, 0, 0⟩ ⟨4, 5, 6⟩ (easeOutCubic
            (flightProgress ⟨⟨0, 0, 0⟩, ⟨0, 0, 0⟩, ⟨1, 2, 3⟩, ⟨4, 5, 6⟩, 0, 1000⟩ 250))
      ∧ ((250 : ℚ) = 0 →
          tickFlight ⟨⟨0, 0, 0⟩, ⟨0, 0, 0⟩, ⟨1, 2, 3⟩, ⟨4, 5, 6⟩, 0, 1000⟩ 250 =
            ⟨⟨0, 0, 0⟩, ⟨0, 0, 0⟩⟩)
      ∧ ((0 : ℚ) + 1000 ≤ 250 →
          tickFlight ⟨⟨0, 0, 0⟩, ⟨0, 0, 0⟩, ⟨1, 2, 3⟩, ⟨4, 5, 6⟩, 0, 1000⟩ 250 =
            ⟨⟨1, 2, 3⟩, ⟨4, 5, 6⟩⟩)) :=
  ⟨by norm_num, by norm_num,
   flight_tick_formulas ⟨⟨0, 0, 0⟩, ⟨0, 0, 0⟩, ⟨1, 2, 3⟩, ⟨4, 5, 6⟩, 0, 1000⟩ 250
     (by norm_num) (by norm_num)⟩

/-- Claim C6: on a data refresh the camera state is snapshotted before the
scene rebuild and restored unchanged afterward, so the viewpoint survives;
when no camera existed yet (and hence no snapshot), the rebuilt scene gets
the default camera at position (0, 50, 100) looking at the origin. -/
theorem camera_survives_data_refresh (s : AppState) :
    defaultCamera = ⟨⟨0, 50, 100⟩, ⟨0, 0, 0⟩⟩
    ∧ (∀ c, s.controls = some c → (dataRefresh s).controls = some c)
    ∧ (s.controls = none → s.cameraState = none →
        (dataRefresh s).controls = some defaultCamera) := by
  refine ⟨rfl, ?_, ?_⟩
  · intro c hc
    simp [dataRefresh, snapshotCamera, rebuildScene, hc]
  · intro hc hs
    simp [dataRefresh, snapshotCamera, rebuildScene, hc, hs]

/-- Claim C6, witness: a concrete refresh with an existing camera, and a
concrete first refresh with no camera. -/
theorem camera_survives_data_refresh_witness :
    (AppState.mk (some ⟨⟨1, 2, 3⟩, ⟨4, 5, 6⟩⟩) none).controls = some ⟨⟨1, 2, 3⟩, ⟨4, 5, 6⟩⟩
    ∧ (dataRefresh ⟨some ⟨⟨1, 2, 3⟩, ⟨4, 5, 6⟩⟩, none⟩).controls = some ⟨⟨1, 2, 3⟩, ⟨4, 5, 6⟩⟩
    ∧ (dataRefresh ⟨none, none⟩).controls = some defaultCamera :=
  ⟨rfl, (camera_survives_data_refresh ⟨some ⟨⟨1, 2, 3⟩, ⟨4, 5, 6⟩⟩, none⟩).2.1 _ rfl,
   (camera_survives_data_refresh ⟨none, none⟩).2.2 rfl rfl⟩

/-- Claim C7, amended: the transformer boundary checks only PRESENCE of a
coordinate entry, never finiteness: an entry whose components contain NaN
or Infinity is accepted and its components, multiplied by the scale
factor, propagate into the scene position; only an absent entry yields the
fallback. -/
theorem nonfinite_coordinate_propagates (data : List (String × CoordinateDataF))
    (p : PlanetData) (c : CoordinateDataF)
    (hsun : ¬ p.id = "sun") (h : List.lookup p.id data = some c) :
    meshPositionF data p = (c.x.mulScale, c.y.mulScale, c.z.mulScale) := by
  simp [meshPositionF, hsun, h]

/-- Claim C7, witness: the amended theorem applied to an entry whose
components are all NaN. -/
theorem nonfinite_coordinate_propagates_witness :
    (¬ (("mercury" : String) = "sun"))
    ∧ List.lookup (("mercury" : String))
        [(("mercury" : String), CoordinateDataF.mk "t" .nan .nan .nan)] =
        some (CoordinateDataF.mk "t" .nan .nan .nan)
    ∧ meshPositionF [(("mercury" : String), CoordinateDataF.mk "t" .nan .nan .nan)]
        ⟨"mercury", "Mercury", 0.383, 7.0⟩ = (JSNum.nan, JSNum.nan, JSNum.nan) :=
  ⟨by decide, rfl,
   nonfinite_coordinate_propagates _ ⟨"mercury", "Mercury", 0.383, 7.0⟩
     (CoordinateDataF.mk "t" .nan .nan .nan) (by decide) rfl⟩

/-- Claim C7, counterexample: a coordinate whose components are NaN is not
rejected at the boundary: the body is not treated as missing (it does not
get the fallback scene position (10, 0, 0)); the NaN values propagate into
the scene position. -/
theorem nan_coordinate_not_treated_as_missing :
    meshPositionF [(("mercury" : String), CoordinateDataF.mk "t" .nan .nan .nan)]
        ⟨"mercury", "Mercury", 0.383, 7.0⟩ = (JSNum.nan, JSNum.nan, JSNum.nan)
    ∧ meshPositionF [(("mercury" : String), CoordinateDataF.mk "t" .nan .nan .nan)]
        ⟨"mercury", "Mercury", 0.383, 7.0⟩ ≠ (JSNum.fin 10, JSNum.fin 0, JSNum.fin 0) := by
  exact ⟨by decide, by decide⟩

/-- Claim C8, amended: for every body other than the sun, the scene
position is the coordinate multiplied componentwise by SCALE_FACTOR = 10
when the body has an entry in the refresh data, and the fallback
(10, 0, 0) with no error when it has none; the sun's mesh, however, is
created at the origin and never positioned from the refresh data. -/
theorem scene_position_of_coordinate (data : ApiData) (p : PlanetData)
    (hsun : ¬ p.id = "sun") :
    (∀ c, List.lookup p.id data = some c →
      meshPosition data p = ⟨c.x * SCALE_FACTOR, c.y * SCALE_FACTOR, c.z * SCALE_FACTOR⟩)
    ∧ (List.lookup p.id data = none → meshPosition data p = ⟨10, 0, 0⟩)
    ∧ (∀ d : ApiData, meshPosition d ⟨"sun", "Sun", 109/50, 0⟩ = ⟨0, 0, 0⟩) := by
  refine ⟨fun c hc => ?_, fun hn => ?_, fun d => ?_⟩
  · simp [meshPosition, hsun, hc]
  · simp [meshPosition, hsun, hn]
  · simp [meshPosition]

/-- Claim C8, witness: Venus at coordinate (1, 2, 3) is placed at
(1, 2, 3) * SCALE_FACTOR. -/
theorem scene_position_of_coordinate_witness :
    (¬ (("venus" : String) = "sun"))
    ∧ List.lookup (("venus" : String)) ([(("venus" : String), ⟨"t", 1, 2, 3⟩)] : ApiData) =
        some ⟨"t", 1, 2, 3⟩
    ∧ meshPosition [(("venus" : String), ⟨"t", 1, 2, 3⟩)] ⟨"venus", "Venus", 0.949, 3.4⟩ =
        ⟨1 * SCALE_FACTOR, 2 * SCALE_FACTOR, 3 * SCALE_FACTOR⟩ :=
  ⟨by decide, rfl,
   (scene_position_of_coordinate [(("venus" : String), ⟨"t", 1, 2, 3⟩)]
     ⟨"venus", "Venus", 0.949, 3.4⟩ (by decide)).1 ⟨"t", 1, 2, 3⟩ rfl⟩

/-- Claim C8, counterexample: the sun is a catalog body, yet supplying a
coordinate for it has no effect: its mesh stays at the origin, which is
neither coordinate * 10 nor, when the entry is absent, the fallback
(10, 0, 0). -/
theorem sun_not_positioned_from_data :
    List.lookup (("sun" : String)) ([(("sun" : String), ⟨"t", 1, 0, 0⟩)] : ApiData) =
      some ⟨"t", 1, 0, 0⟩
    ∧ meshPosition [(("sun" : String), ⟨"t", 1, 0, 0⟩)] ⟨"sun", "Sun", 109/50, 0⟩ = ⟨0, 0, 0⟩
    ∧ meshPosition [] ⟨"sun", "Sun", 109/50, 0⟩ = ⟨0, 0, 0⟩
    ∧ ¬ (Vec3.mk 0 0 0 = ⟨1 * SCALE_FACTOR, 0 * SCALE_FACTOR, 0 * SCALE_FACTOR⟩)
    ∧ ¬ (Vec3.mk 0 0 0 = ⟨10, 0, 0⟩) := by
  refine ⟨rfl, rfl, rfl, ?_, ?_⟩
  · norm_num [SCALE_FACTOR, Vec3.mk.injEq]
  · norm_num [Vec3.mk.injEq]

/-- Claim C9: the published pixel position of a projected body equals
screenX = (ndcX*0.5+0.5)*viewportWidth and
screenY = (-ndcY*0.5+0.5)*viewportHeight, and the Y axis is flipped
relative to device coordinates: with a positive viewport height, a larger
ndcY yields a strictly smaller screenY. -/
theorem label_screen_mapping (ndcX ndcY w h : ℚ) :
    labelScreenPos ndcX ndcY w h = specScreenPos ndcX ndcY w h
    ∧ (∀ y1 y2 : ℚ, 0 < h → y1 < y2 →
        (labelScreenPos ndcX y2 w h).2 < (labelScreenPos ndcX y1 w h).2) := by
  refine ⟨rfl, fun y1 y2 hh hy => ?_⟩
  simp only [labelScreenPos]
  have hlt : -y2 * 0.5 + 0.5 < -y1 * 0.5 + 0.5 := by linarith
  exact mul_lt_mul_of_pos_right hlt hh

/-- Claim C9, witness: the mapping at a concrete projection and viewport,
with the Y flip exhibited between device heights 1 and 2. -/
theorem label_screen_mapping_witness :
    ((0 : ℚ) < 600) ∧ ((1 : ℚ) < 2)
    ∧ labelScreenPos 0 1 800 600 = specScreenPos 0 1 800 600
    ∧ (labelScreenPos 0 2 800 600).2 < (labelScreenPos 0 1 800 600).2 :=
  ⟨by norm_num, by norm_num, (label_screen_mapping 0 1 800 600).1,
   (label_screen_mapping 0 1 800 600).2 1 2 (by norm_num) (by norm_num)⟩

/-- Claim C10, amended: the draggable reference cube is initialized at
scene position (20, 20, 20), so before any user drag the published
distance for a body at scene position pos equals the Euclidean norm of
((20,20,20) - pos) divided by 10 AND rounded to 2 decimal places
half-away-from-zero — the rounding performed by toFixed(2) is part of the
published value. -/
theorem initial_cube_distances (pos : Vec3) :
    draggableCubeInitialPosition = ⟨20, 20, 20⟩
    ∧ distanceAU draggableCubeInitialPosition pos =
        roundHalfAwayFromZero2 (euclideanNorm (Vec3.sub ⟨20, 20, 20⟩ pos) / 10) :=
  ⟨rfl, distanceAU_eq_spec ⟨20, 20, 20⟩ pos⟩

/-- Claim C10, counterexample: with Mercury supplied at coordinate
(2, 2, 1.9875), its scene position is (20, 20, 19.875); from the initial
cube position (20, 20, 20) the exact norm over 10 is 0.0125, but the
published distance is the rounded 0.01 — the published value does not
equal the unrounded norm divided by 10. -/
theorem initial_cube_distance_not_exact :
    distanceAU draggableCubeInitialPosition
        (meshPosition [(("mercury" : String), ⟨"t", 2, 2, 1.9875⟩)]
          ⟨"mercury", "Mercury", 0.383, 7.0⟩) = 1/100
    ∧ euclideanNorm (Vec3.sub draggableCubeInitialPosition
        (meshPosition [(("mercury" : String), ⟨"t", 2, 2, 1.9875⟩)]
          ⟨"mercury", "Mercury", 0.383, 7.0⟩)) / 10 = ((1/80 : ℚ) : ℝ)
    ∧ ¬ (((1/100 : ℚ) : ℝ) = ((1/80 : ℚ) : ℝ)) := by
  have hm : meshPosition [(("mercury" : String), ⟨"t", 2, 2, 1.9875⟩)]
      ⟨"mercury", "Mercury", 0.383, 7.0⟩ = ⟨20, 20, 159/8⟩ := by
    norm_num +decide [meshPosition, SCALE_FACTOR, List.lookup, Vec3.mk.injEq]
  rw [hm]
  refine ⟨?_, ?_, ?_⟩
  · rw [show draggableCubeInitialPosition = ⟨20, 20, 20⟩ from rfl,
      distanceAU_eval ⟨20, 20, 20⟩ ⟨20, 20, 159/8⟩ (1/80) (by norm_num)
        (by norm_num [distSq])]
    norm_num
  · rw [show draggableCubeInitialPosition = ⟨20, 20, 20⟩ from rfl,
      euclideanNorm_eval (Vec3.sub ⟨20, 20, 20⟩ ⟨20, 20, 159/8⟩) (1/8) (by norm_num)
        (by norm_num [Vec3.sub])]
    push_cast
    norm_num
  · push_cast
    norm_num
